import Mathlib

/-!
Verification of the resilient navigation and element-resolution layer of a
Playwright-based UI test-automation suite. The shallow embedding below
translates the retry/backoff loop of `BasePage.goto`, the visibility and
input helpers of `BasePage`, and the inline multi-candidate selector loops of
`LoginPage.login` and `FormPage.fillFormCreationForm`. Interactions with the
external browser engine (navigation results, probe outcomes, screenshot
results, read-back values) are passed in as explicit oracle arguments.
-/

/-- The wait-until conditions the navigation primitive accepts. -/
inductive WaitUntil where
  | domcontentloaded
  | load
  | networkidle
deriving DecidableEq, Repr

/-- An error thrown by a browser primitive, as far as `BasePage.goto` inspects
it: its `message` and `name` fields. -/
structure NavError where
  message : String
  name : String
deriving DecidableEq, Repr

/-- The options object `BasePage.goto` receives; each field may be absent.
The `waitUntil` option only seeds the initial `gotoOptions.waitUntil`, which
the loop overwrites on every attempt before calling `page.goto`. -/
structure GotoOptions where
  retries : Option Nat
  timeout : Option Nat
  waitUntil : Option WaitUntil
deriving DecidableEq, Repr

/-- What one loop iteration of `BasePage.goto` did: the attempt index, the
wait-until condition and timeout passed to `page.goto`, and the
`waitForTimeout` backoff waits performed after the attempt (empty when the
attempt succeeded or its error was surfaced without a retry). -/
structure AttemptRecord where
  attempt : Nat
  waitUntil : WaitUntil
  timeoutUsed : Nat
  waits : List Nat
deriving DecidableEq, Repr

/-- How a `BasePage.goto` call ends: a successful return after some attempt,
the error it throws, or the fall-through of the `for` loop (unreachable once
`maxRetries ≥ 1`, which the `|| 3` default guarantees). -/
inductive GotoOutcome where
  | success (attempt : Nat) (history : List AttemptRecord)
  | failure (err : NavError) (attempt : Nat) (history : List AttemptRecord)
  | fellThrough (history : List AttemptRecord)
deriving DecidableEq, Repr

/-- The attempt records an outcome carries. -/
def GotoOutcome.history : GotoOutcome → List AttemptRecord
  | .success _ h => h
  | .failure _ _ h => h
  | .fellThrough h => h

/-- How many `page.goto` attempts an outcome records. -/
def GotoOutcome.attemptCount (o : GotoOutcome) : Nat :=
  o.history.length

/-- Every backoff wait an outcome records, in order. -/
def GotoOutcome.allWaits (o : GotoOutcome) : List Nat :=
  (o.history.map AttemptRecord.waits).flatten

/-- JS `String.prototype.includes` over character lists, written with
structural recursion so the kernel can evaluate it on concrete inputs. -/
def includesChars (needle : List Char) : List Char → Bool
  | [] => needle.isEmpty
  | c :: rest => needle.isPrefixOf (c :: rest) || includesChars needle rest

/-- `haystack.includes(needle)` of JS. -/
def strIncludes (haystack needle : String) : Bool :=
  includesChars needle.data haystack.data

/-- `s.toLowerCase()` of JS, as ASCII case folding per character. -/
def lowerString (s : String) : String :=
  ⟨s.data.map Char.toLower⟩

namespace BasePage

/-- `BasePage.goto` lines 58-67: an error is network/timeout-class (retryable)
when its lowercased message contains one of the listed substrings or its name
is `TimeoutError`. -/
def isNetworkError (e : NavError) : Bool :=
  let m := lowerString e.message
  strIncludes m "err_http2_protocol_error" ||
  strIncludes m "net::" ||
  strIncludes m "navigation timeout" ||
  strIncludes m "timeout" ||
  strIncludes m "err_connection" ||
  strIncludes m "timeout exceeded" ||
  strIncludes m "page.goto" ||
  e.name == "TimeoutError"

/-- `options.retries || 3`: an absent or zero (hence falsy) retries option
defaults to 3. -/
def retriesOrDefault (r : Option Nat) : Nat :=
  match r with
  | none => 3
  | some n => if n = 0 then 3 else n

/-- `options.timeout || 120000`. -/
def timeoutOrDefault (t : Option Nat) : Nat :=
  match t with
  | none => 120000
  | some n => if n = 0 then 120000 else n

/-- `BasePage.goto` lines 30-44: the wait-until condition chosen for each
attempt (1-based). The later `attempt > 3` branch re-assigns `networkidle`,
which the `else` branch has already selected, so it changes nothing. -/
def waitUntilFor (attempt : Nat) : WaitUntil :=
  if attempt = 1 then .domcontentloaded
  else if attempt = 2 then .load
  else .networkidle

/-- `BasePage.goto` line 70: `Math.min(attempt * 2000, 10000)`. -/
def backoffBase (attempt : Nat) : Nat :=
  min (attempt * 2000) 10000

/-- `BasePage.goto` lines 80-90: the `waitForTimeout` calls performed after a
failed attempt before retrying: an extra 2000ms first for HTTP2 protocol
errors, then twice the base wait for connection resets (that check is
case-sensitive on the raw message) and the base wait otherwise. -/
def backoffWaits (e : NavError) (attempt : Nat) : List Nat :=
  let waitTime := backoffBase attempt
  (if strIncludes (lowerString e.message) "err_http2_protocol_error" then [2000] else []) ++
  (if strIncludes e.message "ERR_CONNECTION_RESET" then [waitTime * 2] else [waitTime])

/-- `BasePage.goto` lines 74-78: on a timeout-class message the mutable
per-attempt timeout shrinks by 20000ms, floored at 60000ms, before the next
attempt; otherwise it is left unchanged. -/
def nextTimeout (e : NavError) (timeout : Nat) : Nat :=
  if strIncludes (lowerString e.message) "timeout" then max 60000 (timeout - 20000)
  else timeout

/-- The retry loop of `BasePage.goto` (lines 27-103). `nav attempt` is the
result of the underlying `page.goto` call on that attempt. The fuel argument
bounds the remaining iterations; `goto` supplies `maxRetries` for it, which
makes it exactly the loop bound `attempt ≤ maxRetries`. On a network-class
error with attempts left the loop backs off and retries with the adjusted
timeout; any other error, or an exhausted budget, is thrown to the caller. -/
def gotoRun (nav : Nat → Except NavError Unit) (maxRetries : Nat) :
    Nat → Nat → Nat → List AttemptRecord → GotoOutcome
  | 0, _, _, hist => .fellThrough hist
  | fuel + 1, attempt, timeout, hist =>
    match nav attempt with
    | .ok _ => .success attempt (hist ++ [⟨attempt, waitUntilFor attempt, timeout, []⟩])
    | .error e =>
      if isNetworkError e ∧ attempt < maxRetries then
        gotoRun nav maxRetries fuel (attempt + 1) (nextTimeout e timeout)
          (hist ++ [⟨attempt, waitUntilFor attempt, timeout, backoffWaits e attempt⟩])
      else
        .failure e attempt (hist ++ [⟨attempt, waitUntilFor attempt, timeout, []⟩])

/-- `BasePage.goto url options`, with the navigation primitive's behaviour
given by the oracle `nav`. -/
def goto (options : GotoOptions) (nav : Nat → Except NavError Unit) : GotoOutcome :=
  let maxRetries := retriesOrDefault options.retries
  gotoRun nav maxRetries maxRetries 1 (timeoutOrDefault options.timeout) []

/-- `BasePage.isElementVisible` (lines 137-146): await the underlying
visibility wait, return `true` when it succeeds and `false` on any error;
nothing escapes to the caller. `waitResult` is the `locator.waitFor` result. -/
def isElementVisible (waitResult : Except String Unit) : Bool :=
  match waitResult with
  | .ok _ => true
  | .error _ => false

/-- The options `BasePage.fillInput` receives: `validate` is absent, `true` or
`false`; the code tests `options.validate !== false`, so only the literal
`false` skips validation. -/
structure FillOptions where
  validate : Option Bool
  timeout : Option Nat
deriving DecidableEq, Repr

/-- `BasePage.fillInput` (lines 156-175), for runs in which `clear` and `fill`
succeed: wait for the element (a failure propagates as the wait-timeout
error), fill, then unless `options.validate === false` read the value back
and throw when it differs from the requested text; the outer catch logs and
rethrows errors unchanged. `readBack` is what `locator.inputValue()`
returns after the fill. -/
def fillInput (options : FillOptions) (waitResult : Except String Unit)
    (text readBack : String) : Except String Unit :=
  match waitResult with
  | .error m => .error ("Element wait timeout: " ++ m)
  | .ok _ =>
    if options.validate ≠ some false then
      if readBack = text then .ok ()
      else .error ("Input validation failed. Expected: \"" ++ text ++ "\", Got: \"" ++
        readBack ++ "\"")
    else .ok ()

/-- `BasePage.clickElement` (lines 184-203): wait for visibility, then unless
`options.force` check `isEnabled` and throw `Element is not enabled` for a
disabled element before ever invoking `locator.click`; the outer catch logs
and rethrows errors unchanged. `clickResult` is the underlying click's
result. -/
def clickElement (waitResult : Except String Unit) (force enabled : Bool)
    (clickResult : Except String Unit) : Except String Unit :=
  match waitResult with
  | .error m => .error ("Element wait timeout: " ++ m)
  | .ok _ =>
    if force = false ∧ enabled = false then .error "Element is not enabled"
    else clickResult

end BasePage

/-- What one candidate probe observes: the candidate became visible within its
per-candidate timeout, it did not, or the probe itself threw (e.g. a
malformed query). The inline candidate loops catch a throw per candidate. -/
inductive ProbeOutcome where
  | visible
  | notVisible
  | threw
deriving DecidableEq, Repr

/-- The candidate loops of `LoginPage.login` (lines 71-81) and
`FormPage.fillFormCreationForm` (lines 66-79): try each candidate in list
order, break on the first whose probe reports visible, treat a throwing probe
exactly like a non-matching one (its catch falls through to the next
candidate), and return the matched candidate's rank. -/
def resolveFirstVisible : List ProbeOutcome → Option Nat
  | [] => none
  | p :: ps =>
    if p = .visible then some 0
    else (resolveFirstVisible ps).map (· + 1)

/-- How many candidates the loop probes before returning: the loop breaks on
the first visible candidate and probes nothing after it. -/
def probedCount : List ProbeOutcome → Nat
  | [] => 0
  | p :: ps => if p = .visible then 1 else 1 + probedCount ps

/-- The outcome of a page object's inline candidate resolution: the matched
candidate's rank, the last-resort fallback (LoginPage's bare
`input[type=email]` query), or the thrown not-found error's message. -/
inductive ResolveResult where
  | found (rank : Nat)
  | fallbackEmail
  | notFound (message : String)
deriving DecidableEq, Repr

namespace LoginPage

/-- `LoginPage.login` lines 59-91: probe the username selectors in order; when
none matches, count the page's `input[type=email]` elements as a last resort
and use the first when any exist, else throw a fixed error message (which
names no candidate). `emailInputs` is the fallback query's count. -/
def usernameFieldResolve (ps : List ProbeOutcome) (emailInputs : Nat) : ResolveResult :=
  match resolveFirstVisible ps with
  | some i => .found i
  | none =>
    if emailInputs > 0 then .fallbackEmail
    else .notFound "Username field not found on the page"

/-- `LoginPage.login` lines 170-175: on the password-field-not-found terminal
failure the code awaits `page.screenshot` with no `.catch`, then throws its
typed error; a rejected screenshot therefore escapes to the caller in place
of the typed error. `shot` is the screenshot call's result. -/
def passwordNotFoundFailure (shot : Except String Unit) : Except String Unit :=
  match shot with
  | .error e => .error e
  | .ok _ => .error "Password field not found on the page after trying all selectors"

end LoginPage

namespace FormPage

/-- `FormPage.fillFormCreationForm` lines 52-84: probe the name-input
selectors in order; when none is visible, take a debugging screenshot and
throw a fixed error message (which names no candidate). -/
def nameInputResolve (ps : List ProbeOutcome) : ResolveResult :=
  match resolveFirstVisible ps with
  | some i => .found i
  | none => .notFound "Form name input field not found. Form may not have loaded."

/-- `FormPage.fillFormCreationForm` lines 81-84: on the name-input-not-found
terminal failure the debugging screenshot carries `.catch(() => {})`, so the
typed error is thrown regardless of the capture's result; a capture failure
is swallowed. `shot` is the screenshot call's result. -/
def nameNotFoundFailure (shot : Except String Unit) : Except String Unit :=
  match shot with
  | .error _ => .error "Form name input field not found. Form may not have loaded."
  | .ok _ => .error "Form name input field not found. Form may not have loaded."

end FormPage

/-- The `|| 3` default makes the loop bound at least 1. -/
theorem retriesOrDefault_pos (r : Option Nat) : 1 ≤ BasePage.retriesOrDefault r := by
  cases r with
  | none => simp [BasePage.retriesOrDefault]
  | some n =>
    simp only [BasePage.retriesOrDefault]
    split <;> omega

/-- One loop iteration on a successful `page.goto`. -/
theorem gotoRun_step_ok (nav : Nat → Except NavError Unit) (M f a t : Nat)
    (hist : List AttemptRecord) (hnav : nav a = Except.ok ()) :
    BasePage.gotoRun nav M (f + 1) a t hist
      = GotoOutcome.success a (hist ++ [⟨a, BasePage.waitUntilFor a, t, []⟩]) := by
  conv_lhs => rw [BasePage.gotoRun]
  rw [hnav]

/-- One loop iteration on a transient error with budget left: back off and
retry with the adjusted timeout. -/
theorem gotoRun_step_retry (nav : Nat → Except NavError Unit) (M f a t : Nat)
    (hist : List AttemptRecord) (e : NavError) (hnav : nav a = Except.error e)
    (hgo : BasePage.isNetworkError e ∧ a < M) :
    BasePage.gotoRun nav M (f + 1) a t hist
      = BasePage.gotoRun nav M f (a + 1) (BasePage.nextTimeout e t)
          (hist ++ [⟨a, BasePage.waitUntilFor a, t, BasePage.backoffWaits e a⟩]) := by
  conv_lhs => rw [BasePage.gotoRun]
  rw [hnav]
  exact if_pos hgo

/-- One loop iteration on an error that is not retried: the error is thrown. -/
theorem gotoRun_step_throw (nav : Nat → Except NavError Unit) (M f a t : Nat)
    (hist : List AttemptRecord) (e : NavError) (hnav : nav a = Except.error e)
    (hstop : ¬(BasePage.isNetworkError e ∧ a < M)) :
    BasePage.gotoRun nav M (f + 1) a t hist
      = GotoOutcome.failure e a (hist ++ [⟨a, BasePage.waitUntilFor a, t, []⟩]) := by
  conv_lhs => rw [BasePage.gotoRun]
  rw [hnav]
  exact if_neg hstop

/-- When every attempt fails with the same transient error, the loop runs its
whole budget: starting from attempt `a` with fuel `f` (the loop invariant
`a + f = M + 1`), it ends in a thrown failure at attempt `M` having recorded
`f` more attempts. -/
theorem gotoRun_allFail (e : NavError) (he : BasePage.isNetworkError e = true) (M : Nat) :
    ∀ f : Nat, 1 ≤ f → ∀ (a t : Nat) (hist : List AttemptRecord), a + f = M + 1 →
    ∃ hist', BasePage.gotoRun (fun _ => Except.error e) M f a t hist
        = GotoOutcome.failure e M hist'
      ∧ hist'.length = hist.length + f := by
  intro f
  induction f with
  | zero => omega
  | succ f ih =>
    intro _ a t hist hsum
    by_cases ha : a < M
    · have hf : 1 ≤ f := by omega
      obtain ⟨hist', heq, hlen⟩ := ih hf (a + 1) (BasePage.nextTimeout e t)
        (hist ++ [⟨a, BasePage.waitUntilFor a, t, BasePage.backoffWaits e a⟩]) (by omega)
      refine ⟨hist', ?_, ?_⟩
      · rw [gotoRun_step_retry _ M f a t hist e rfl ⟨he, ha⟩]
        exact heq
      · simp at hlen
        omega
    · have haM : a = M := by omega
      refine ⟨hist ++ [⟨a, BasePage.waitUntilFor a, t, []⟩], ?_, ?_⟩
      · rw [gotoRun_step_throw _ M f a t hist e rfl (by tauto), haM]
      · simp
        omega

/-- C1, amended: with every attempt failing on a transient (network/timeout
class) error, `BasePage.goto` performs exactly `retriesOrDefault retries`
attempts in total — the `retries` option itself, not `retries + 1` — and then
surfaces the exhausted failure. -/
theorem c1_goto_transient_attempts (options : GotoOptions) (e : NavError)
    (he : BasePage.isNetworkError e = true) :
    ∃ hist, BasePage.goto options (fun _ => Except.error e)
        = GotoOutcome.failure e (BasePage.retriesOrDefault options.retries) hist
      ∧ hist.length = BasePage.retriesOrDefault options.retries := by
  obtain ⟨hist', heq, hlen⟩ := gotoRun_allFail e he (BasePage.retriesOrDefault options.retries)
    (BasePage.retriesOrDefault options.retries) (retriesOrDefault_pos options.retries)
    1 (BasePage.timeoutOrDefault options.timeout) [] (by omega)
  exact ⟨hist', heq, by simpa using hlen⟩

/-- C1 witness: `retries = 2` and a permanently failing connection-reset
navigation give a thrown failure after exactly 2 recorded attempts. -/
theorem c1_goto_transient_attempts_witness :
    ∃ hist, BasePage.goto ⟨some 2, none, none⟩
        (fun _ => Except.error ⟨"net::ERR_CONNECTION_RESET", ""⟩)
        = GotoOutcome.failure ⟨"net::ERR_CONNECTION_RESET", ""⟩
            (BasePage.retriesOrDefault (some 2)) hist
      ∧ hist.length = BasePage.retriesOrDefault (some 2) :=
  c1_goto_transient_attempts ⟨some 2, none, none⟩ ⟨"net::ERR_CONNECTION_RESET", ""⟩ (by decide)

/-- C1 counterexample: with max retry count N = 3 (the `retries` option, also
the default) and a navigation that fails with a timeout-class error on every
attempt, `BasePage.goto` performs exactly 3 attempts — not N + 1 = 4 as the
claim states. -/
theorem c1_counterexample :
    (BasePage.goto ⟨some 3, none, none⟩
        (fun _ => Except.error ⟨"navigation timeout exceeded", "TimeoutError"⟩)).attemptCount = 3
    ∧ (3 : Nat) ≠ 3 + 1 := by decide

/-- C4: an error that is not network/timeout class propagates from
`BasePage.goto` at once: the outcome is a thrown failure at attempt 1 with a
single attempt record and no backoff wait; and `BasePage.clickElement` on a
visible but disabled element (without `force`) throws `Element is not
enabled` without ever invoking the underlying click, whatever that click
would have returned. -/
theorem c4_rejected_failfast (options : GotoOptions) (nav : Nat → Except NavError Unit)
    (e : NavError) (h1 : nav 1 = Except.error e) (h2 : BasePage.isNetworkError e = false) :
    BasePage.goto options nav
      = GotoOutcome.failure e 1
          [⟨1, WaitUntil.domcontentloaded, BasePage.timeoutOrDefault options.timeout, []⟩]
    ∧ (BasePage.goto options nav).attemptCount = 1
    ∧ (BasePage.goto options nav).allWaits = []
    ∧ ∀ click : Except String Unit,
        BasePage.clickElement (Except.ok ()) false false click
          = Except.error "Element is not enabled" := by
  have hM := retriesOrDefault_pos options.retries
  obtain ⟨m, hm⟩ : ∃ m, BasePage.retriesOrDefault options.retries = m + 1 :=
    ⟨BasePage.retriesOrDefault options.retries - 1, by omega⟩
  have hgoto : BasePage.goto options nav
      = GotoOutcome.failure e 1
          [⟨1, WaitUntil.domcontentloaded, BasePage.timeoutOrDefault options.timeout, []⟩] := by
    show BasePage.gotoRun nav (BasePage.retriesOrDefault options.retries)
        (BasePage.retriesOrDefault options.retries) 1
        (BasePage.timeoutOrDefault options.timeout) [] = _
    rw [hm, gotoRun_step_throw nav (m + 1) m 1 (BasePage.timeoutOrDefault options.timeout)
      [] e h1 (by simp [h2])]
    rfl
  refine ⟨hgoto, ?_, ?_, ?_⟩
  · rw [hgoto]; rfl
  · rw [hgoto]; rfl
  · intro click
    rfl

/-- C4 witness: a malformed-URL style rejection (no network/timeout marker in
its message) surfaces unchanged after a single attempt, and the disabled
element's click is rejected outright. -/
theorem c4_rejected_failfast_witness :
    BasePage.goto ⟨none, some 5000, none⟩ (fun _ => Except.error ⟨"invalid url scheme", "Error"⟩)
      = GotoOutcome.failure ⟨"invalid url scheme", "Error"⟩ 1
          [⟨1, WaitUntil.domcontentloaded, BasePage.timeoutOrDefault (some 5000), []⟩]
    ∧ (BasePage.goto ⟨none, some 5000, none⟩
        (fun _ => Except.error ⟨"invalid url scheme", "Error"⟩)).attemptCount = 1
    ∧ (BasePage.goto ⟨none, some 5000, none⟩
        (fun _ => Except.error ⟨"invalid url scheme", "Error"⟩)).allWaits = []
    ∧ ∀ click : Except String Unit,
        BasePage.clickElement (Except.ok ()) false false click
          = Except.error "Element is not enabled" :=
  c4_rejected_failfast ⟨none, some 5000, none⟩ _ ⟨"invalid url scheme", "Error"⟩ rfl (by decide)

/-- The per-attempt base backoff is monotone in the attempt index. -/
theorem backoffBase_mono (a b : Nat) (hab : a ≤ b) :
    BasePage.backoffBase a ≤ BasePage.backoffBase b := by
  unfold BasePage.backoffBase
  exact min_le_min (Nat.mul_le_mul_right _ hab) le_rfl

/-- C5: for failures of one fixed error class, the total backoff wait
performed between successive attempts is non-negative and monotonically
non-decreasing in the attempt index. -/
theorem c5_backoff_monotone (e : NavError) (a b : Nat) (hab : a ≤ b) :
    0 ≤ (BasePage.backoffWaits e a).sum
    ∧ (BasePage.backoffWaits e a).sum ≤ (BasePage.backoffWaits e b).sum := by
  refine ⟨Nat.zero_le _, ?_⟩
  have hbase := backoffBase_mono a b hab
  unfold BasePage.backoffWaits
  by_cases h1 : strIncludes (lowerString e.message) "err_http2_protocol_error" <;>
    by_cases h2 : strIncludes e.message "ERR_CONNECTION_RESET" <;>
      simp [h1, h2] <;> omega

/-- C5 witness: the timeout-class schedule between attempts 1 and 2. -/
theorem c5_backoff_monotone_witness :
    0 ≤ (BasePage.backoffWaits ⟨"navigation timeout", ""⟩ 1).sum
    ∧ (BasePage.backoffWaits ⟨"navigation timeout", ""⟩ 1).sum
      ≤ (BasePage.backoffWaits ⟨"navigation timeout", ""⟩ 2).sum :=
  c5_backoff_monotone ⟨"navigation timeout", ""⟩ 1 2 (by decide)

/-- Every attempt record the loop appends carries the wait-until condition
`waitUntilFor` assigns to its attempt index. -/
theorem gotoRun_history_shape (nav : Nat → Except NavError Unit) (M : Nat) :
    ∀ (f a t : Nat) (hist : List AttemptRecord),
    (∀ r ∈ hist, r.waitUntil = BasePage.waitUntilFor r.attempt) →
    ∀ r ∈ (BasePage.gotoRun nav M f a t hist).history,
      r.waitUntil = BasePage.waitUntilFor r.attempt := by
  intro f
  induction f with
  | zero => intro a t hist hh r hr; exact hh r hr
  | succ f ih =>
    intro a t hist hh r hr
    cases hnav : nav a with
    | ok u =>
      cases u
      rw [gotoRun_step_ok nav M f a t hist hnav] at hr
      simp only [GotoOutcome.history, List.mem_append, List.mem_singleton] at hr
      rcases hr with hr | hr
      · exact hh r hr
      · rw [hr]
    | error e =>
      by_cases hgo : BasePage.isNetworkError e ∧ a < M
      · rw [gotoRun_step_retry nav M f a t hist e hnav hgo] at hr
        refine ih (a + 1) (BasePage.nextTimeout e t) _ ?_ r hr
        intro q hq
        simp only [List.mem_append, List.mem_singleton] at hq
        rcases hq with hq | hq
        · exact hh q hq
        · rw [hq]
      · rw [gotoRun_step_throw nav M f a t hist e hnav hgo] at hr
        simp only [GotoOutcome.history, List.mem_append, List.mem_singleton] at hr
        rcases hr with hr | hr
        · exact hh r hr
        · rw [hr]

/-- C6: the wait-until condition escalates with the attempt index — attempt 1
navigates with `domcontentloaded`, attempt 2 with `load`, attempt 3 and every
later attempt with `networkidle` — and every attempt record a `BasePage.goto`
run produces carries exactly the condition assigned to its attempt index. -/
theorem c6_waituntil_escalation :
    BasePage.waitUntilFor 1 = WaitUntil.domcontentloaded
    ∧ BasePage.waitUntilFor 2 = WaitUntil.load
    ∧ (∀ a, 3 ≤ a → BasePage.waitUntilFor a = WaitUntil.networkidle)
    ∧ ∀ (options : GotoOptions) (nav : Nat → Except NavError Unit),
        ∀ r ∈ (BasePage.goto options nav).history,
          r.waitUntil = BasePage.waitUntilFor r.attempt := by
  refine ⟨rfl, rfl, ?_, ?_⟩
  · intro a ha
    unfold BasePage.waitUntilFor
    rw [if_neg (by omega), if_neg (by omega)]
  · intro options nav r hr
    exact gotoRun_history_shape nav (BasePage.retriesOrDefault options.retries)
      (BasePage.retriesOrDefault options.retries) 1 (BasePage.timeoutOrDefault options.timeout)
      [] (by simp) r hr

/-- C7: the candidate loop probes strictly in list order and short-circuits on
the first visible candidate — it probes exactly the candidates up to and
including the match, never a later one — so when exactly one candidate is
visible, the loop returns that candidate's rank wherever it sits in the
list. -/
theorem c7_unique_match_found (ps : List ProbeOutcome) (i : Nat) (hi : i < ps.length)
    (hvis : ps.get ⟨i, hi⟩ = ProbeOutcome.visible)
    (huniq : ∀ j (hj : j < ps.length), ps.get ⟨j, hj⟩ = ProbeOutcome.visible → j = i) :
    resolveFirstVisible ps = some i ∧ probedCount ps = i + 1 := by
  induction ps generalizing i with
  | nil => simp at hi
  | cons p ps ih =>
    by_cases hp : p = ProbeOutcome.visible
    · have h0 : (0 : Nat) = i := huniq 0 (by simp) (by simpa using hp)
      constructor
      · simp [resolveFirstVisible, hp, ← h0]
      · simp [probedCount, hp, ← h0]
    · cases i with
      | zero => exact absurd (by simpa using hvis) hp
      | succ i' =>
        have hi' : i' < ps.length := by simpa using hi
        have hvis' : ps.get ⟨i', hi'⟩ = ProbeOutcome.visible := by simpa using hvis
        have huniq' : ∀ j (hj : j < ps.length),
            ps.get ⟨j, hj⟩ = ProbeOutcome.visible → j = i' := by
          intro j hj h
          have := huniq (j + 1) (by simpa using Nat.succ_lt_succ hj) (by simpa using h)
          omega
        obtain ⟨hres, hcnt⟩ := ih i' hi' hvis' huniq'
        constructor
        · simp [resolveFirstVisible, hp, hres]
        · simp [probedCount, hp, hcnt]
          omega

/-- C7 witness: with the sole visible candidate ranked last after a
non-matching and a throwing candidate, resolution returns rank 2 and probes
all three candidates. -/
theorem c7_unique_match_found_witness :
    resolveFirstVisible [ProbeOutcome.notVisible, ProbeOutcome.threw, ProbeOutcome.visible]
      = some 2
    ∧ probedCount [ProbeOutcome.notVisible, ProbeOutcome.threw, ProbeOutcome.visible] = 2 + 1 :=
  c7_unique_match_found [ProbeOutcome.notVisible, ProbeOutcome.threw, ProbeOutcome.visible]
    2 (by decide) (by decide) (by decide)

/-- C8: a candidate whose probe throws behaves exactly like one that merely
fails to match — resolution continues with the candidates after it, returns
the same rank and probes the same number of candidates — and in particular
the thrown exception never aborts the whole resolution. -/
theorem c8_throwing_probe_local (xs ys : List ProbeOutcome) :
    resolveFirstVisible (xs ++ ProbeOutcome.threw :: ys)
        = resolveFirstVisible (xs ++ ProbeOutcome.notVisible :: ys)
    ∧ probedCount (xs ++ ProbeOutcome.threw :: ys)
        = probedCount (xs ++ ProbeOutcome.notVisible :: ys) := by
  induction xs with
  | nil => simp [resolveFirstVisible, probedCount]
  | cons p xs ih =>
    by_cases hp : p = ProbeOutcome.visible <;>
      simp [resolveFirstVisible, probedCount, hp, ih.1, ih.2]

/-- A list with no visible candidate resolves to nothing, with every candidate
probed. -/
theorem resolveFirstVisible_none (ps : List ProbeOutcome)
    (h : ∀ p ∈ ps, p ≠ ProbeOutcome.visible) :
    resolveFirstVisible ps = none ∧ probedCount ps = ps.length := by
  induction ps with
  | nil => simp [resolveFirstVisible, probedCount]
  | cons p ps ih =>
    have hp : p ≠ ProbeOutcome.visible := h p (by simp)
    have h' : ∀ q ∈ ps, q ≠ ProbeOutcome.visible := fun q hq => h q (by simp [hq])
    obtain ⟨h1, h2⟩ := ih h'
    simp [resolveFirstVisible, probedCount, hp, h1, h2]
    omega

/-- C3, amended: when no candidate matches, resolution does probe every
candidate (the probe count equals the list length), but the failure finally
thrown — after LoginPage's empty last-resort email query — is a fixed message
that does not enumerate the candidates tried; FormPage's name-input loop
behaves the same way. -/
theorem c3_notfound_fixed_message (ps : List ProbeOutcome)
    (h : ∀ p ∈ ps, p ≠ ProbeOutcome.visible) :
    probedCount ps = ps.length
    ∧ LoginPage.usernameFieldResolve ps 0
        = ResolveResult.notFound "Username field not found on the page"
    ∧ FormPage.nameInputResolve ps
        = ResolveResult.notFound "Form name input field not found. Form may not have loaded." := by
  obtain ⟨h1, h2⟩ := resolveFirstVisible_none ps h
  refine ⟨h2, ?_, ?_⟩ <;>
    simp [LoginPage.usernameFieldResolve, FormPage.nameInputResolve, h1]

/-- C3 witness: two failing candidates (one not visible, one throwing) are
both probed and the fixed not-found errors are thrown. -/
theorem c3_notfound_fixed_message_witness :
    probedCount [ProbeOutcome.notVisible, ProbeOutcome.threw]
      = (List.length [ProbeOutcome.notVisible, ProbeOutcome.threw])
    ∧ LoginPage.usernameFieldResolve [ProbeOutcome.notVisible, ProbeOutcome.threw] 0
        = ResolveResult.notFound "Username field not found on the page"
    ∧ FormPage.nameInputResolve [ProbeOutcome.notVisible, ProbeOutcome.threw]
        = ResolveResult.notFound "Form name input field not found. Form may not have loaded." :=
  c3_notfound_fixed_message [ProbeOutcome.notVisible, ProbeOutcome.threw] (by decide)

/-- C3 counterexample: all-failing candidate lists of lengths 1 and 2 produce
the identical NotFound failure, so the failure cannot enumerate the
candidates tried with a count equal to the list length (1 ≠ 2). -/
theorem c3_counterexample :
    LoginPage.usernameFieldResolve [ProbeOutcome.notVisible] 0
      = LoginPage.usernameFieldResolve [ProbeOutcome.notVisible, ProbeOutcome.notVisible] 0
    ∧ (1 : Nat) ≠ 2 := by decide

/-- C2 (code bug): on FormPage's terminal not-found failure the debugging
screenshot's rejection is swallowed by its `.catch` and the typed error still
reaches the caller, as the claim requires; but on LoginPage's
password-field-not-found terminal failure the screenshot has no `.catch`, so
its rejection escapes to the caller in place of the typed error. -/
theorem c2_snapshot_error_escapes :
    LoginPage.passwordNotFoundFailure
        (Except.error "Target page, context or browser has been closed")
      = Except.error "Target page, context or browser has been closed"
    ∧ LoginPage.passwordNotFoundFailure
        (Except.error "Target page, context or browser has been closed")
      ≠ Except.error "Password field not found on the page after trying all selectors"
    ∧ FormPage.nameNotFoundFailure
        (Except.error "Target page, context or browser has been closed")
      = Except.error "Form name input field not found. Form may not have loaded." := by
  refine ⟨rfl, ?_, rfl⟩
  intro h
  exact absurd (Except.error.inj h) (by decide)

/-- C9: `BasePage.isElementVisible` is total at its interface — it returns a
plain boolean, `true` exactly when the underlying visibility wait succeeded
and `false` on every failure, and never propagates the wait's error. -/
theorem c9_isElementVisible_total (r : Except String Unit) :
    (BasePage.isElementVisible r = true ↔ r = Except.ok ())
    ∧ (BasePage.isElementVisible r = false ↔ ∃ m, r = Except.error m) := by
  cases r <;> simp [BasePage.isElementVisible]

/-- C10: with default options `BasePage.fillInput` succeeds exactly when the
value read back after the fill equals the requested text, throws the
validation error on any mismatch, skips the check only under
`validate = false`, and `validate = true` behaves as the default. -/
theorem c10_fillInput_validation (text readBack : String) :
    (BasePage.fillInput ⟨none, none⟩ (Except.ok ()) text readBack = Except.ok ()
        ↔ readBack = text)
    ∧ (readBack ≠ text →
        BasePage.fillInput ⟨none, none⟩ (Except.ok ()) text readBack
          = Except.error ("Input validation failed. Expected: \"" ++ text ++ "\", Got: \"" ++
              readBack ++ "\""))
    ∧ BasePage.fillInput ⟨some false, none⟩ (Except.ok ()) text readBack = Except.ok ()
    ∧ BasePage.fillInput ⟨some true, none⟩ (Except.ok ()) text readBack
        = BasePage.fillInput ⟨none, none⟩ (Except.ok ()) text readBack := by
  refine ⟨?_, ?_, ?_, ?_⟩ <;>
    simp [BasePage.fillInput]
